import Mathlib

/-!
Verification development for the OpenSRF websocket gateway
(`src/opensrf/src/bin/websockets.rs`) and the OpenSRF service worker
(`src/opensrf/src/worker.rs`).

The data model and the operations below are shallow embeddings of the
Rust source.  Pure control flow is translated function by function;
fallible operations become `Except String`; the message bus and the
websocket write half are external collaborators whose sends are modeled
as succeeding (a failed send makes the surrounding loop exit, which is
outside every property below except where explicitly noted).
-/

namespace Osrf

/-- Modelled from the spec: the `MessageStatus` enum of `message.rs`
(the file itself is outside the sources; codes follow the spec's
StatusCode table: Ok 200, Continue 100, Complete 205, BadRequest 400,
NotFound 404, Timeout 408, InternalServerError 500, MethodNotFound
404). -/
inductive MessageStatus
  | msContinue
  | msOk
  | msComplete
  | msBadRequest
  | msNotFound
  | msMethodNotFound
  | msTimeout
  | msInternalServerError
deriving DecidableEq, Repr

/-- Modelled from the spec: numeric status codes.  The gateway compares
`s as usize >= MessageStatus::BadRequest as usize`, i.e. code >= 400. -/
def statusCode : MessageStatus → Nat
  | .msContinue => 100
  | .msOk => 200
  | .msComplete => 205
  | .msBadRequest => 400
  | .msNotFound => 404
  | .msMethodNotFound => 404
  | .msTimeout => 408
  | .msInternalServerError => 500

/-- The `MessageType` enum of `message.rs` (variants as used by
worker.rs and websockets.rs). -/
inductive MessageType
  | connect
  | request
  | result
  | status
  | disconnect
deriving DecidableEq, Repr

/-- The payload of an inner OpenSRF message.  A `Request` carries a
`Method` payload; only the method name and the parameter count are
observable in the embedded fragment (parameters feed the handler and
the logs). -/
inductive Payload
  | method (name : String) (nparams : Nat)
  | resultPayload
  | statusPayload (stat : MessageStatus)
  | noPayload
deriving DecidableEq, Repr

/-- An inner OpenSRF `Message`: type, thread trace, payload.  The
`ingress` tag set by the gateway has no observable effect here. -/
structure Msg where
  mtype : MessageType
  thread_trace : Nat
  payload : Payload
deriving DecidableEq, Repr

/-- A `TransportMessage`: recipient/sender addresses, thread, trace id
and body.  The recipient is omitted: it never feeds back into the
state of either loop. -/
structure TransportMessage where
  thread : String
  from_ : String
  osrf_xid : String
  body : List Msg
deriving DecidableEq, Repr

end Osrf

namespace Gateway

open Osrf

/-- `MAX_THREAD_SIZE` of websockets.rs. -/
def MAX_THREAD_SIZE : Nat := 256

/-- `MAX_MESSAGE_SIZE` of websockets.rs (~10 MiB). -/
def MAX_MESSAGE_SIZE : Nat := 10485760

/-- `MAX_BACKLOG_SIZE` of websockets.rs. -/
def MAX_BACKLOG_SIZE : Nat := 1000

/-- `SHUTDOWN_MAX_WAIT` of websockets.rs (seconds). -/
def SHUTDOWN_MAX_WAIT : Nat := 30

/-- The decoded top-level keys of one inbound websocket JSON envelope:
`thread`, `log_xid`, `service` (each absent or not a string modeled as
`none`) and the `osrf_msg` list, already normalized to an array as the
source does.  An element `none` is a JSON entry that
`Message::from_json_value` rejects. -/
structure Wrapper where
  thread : Option String
  log_xid : Option String
  service : Option String
  osrf_msg : List (Option Msg)
deriving DecidableEq, Repr

/-- One inbound websocket text frame.  The source stores the raw
`String` in the queue and parses it in `relay_to_osrf`; here the byte
length travels together with the result that `json::parse` plus key
extraction would produce on it (`none` = unparseable JSON). -/
structure WSText where
  len : Nat
  parsed : Option Wrapper
deriving DecidableEq, Repr

/-- The mutable state of the gateway `Session` main thread.  The
`osrf_sessions` HashMap is an association list thread id -> cached
recipient bus address; `shutdown_timer` is `some SHUTDOWN_MAX_WAIT`
once the shutdown timer has been started. -/
structure Session where
  shutdown_session : Bool
  shutdown_server : Bool
  shutdown_timer : Option Nat
  osrf_sessions : List (String × String)
  reqs_in_flight : Nat
  request_queue : List WSText
  max_parallel : Nat
  log_trace : Option String
deriving DecidableEq, Repr

/-- The session state as built in `Session::run`. -/
def initSession (max_parallel : Nat) : Session :=
  { shutdown_session := false
    shutdown_server := false
    shutdown_timer := none
    osrf_sessions := []
    reqs_in_flight := 0
    request_queue := []
    max_parallel := max_parallel
    log_trace := none }

/-- `HashMap::insert` on the thread cache. -/
def sessionsInsert (m : List (String × String)) (k v : String) :
    List (String × String) :=
  (k, v) :: m.filter (fun p => p.1 != k)

/-- `HashMap::remove` on the thread cache. -/
def sessionsRemove (m : List (String × String)) (k : String) :
    List (String × String) :=
  m.filter (fun p => p.1 != k)

/-- `HashMap::get` on the thread cache. -/
def sessionsGet (m : List (String × String)) (k : String) : Option String :=
  (m.find? (fun p => p.1 == k)).map Prod.snd

/-- The per-message loop of `relay_to_osrf`: set the ingress tag, then
match on the message type.  `Connect` and `Request` increment
`reqs_in_flight` (the increment precedes `log_request`, which fails
when a Request has no `Method` payload); `Disconnect` evicts the
thread-cache entry; any other type rejects the whole envelope.  The
accepted messages are accumulated into the body vector, which is then
sent on the bus; the send itself has no state effect. -/
def relayOsrfMsgs (thread : String) :
    List (Option Msg) → Session → Except String Session
  | [], s => .ok s
  | none :: _, _ => .error "could not create message from JSON"
  | some m :: rest, s =>
    match m.mtype with
    | .connect =>
      relayOsrfMsgs thread rest
        { s with reqs_in_flight := s.reqs_in_flight + 1 }
    | .request =>
      match m.payload with
      | .method _ _ =>
        relayOsrfMsgs thread rest
          { s with reqs_in_flight := s.reqs_in_flight + 1 }
      | _ => .error "WS received Request with no payload"
    | .disconnect =>
      relayOsrfMsgs thread rest
        { s with osrf_sessions := sessionsRemove s.osrf_sessions thread }
    | _ => .error "WS received unexpected message type"

/-- `Session::relay_to_osrf`: parse the frame, extract `thread`,
`log_xid` and `service`, reject oversized thread ids, process the inner
message list, then wrap the body in a transport message and send it
(point-to-point when the thread cache has an entry, otherwise via the
router; the send is modeled as succeeding). -/
def relay_to_osrf (s : Session) (w : WSText) : Except String Session :=
  match w.parsed with
  | none => .error "Cannot parse websocket message"
  | some wrapper =>
    let s :=
      { s with log_trace :=
          match wrapper.log_xid with
          | some xid => some xid
          | none => some "mk-log-trace" }
    match wrapper.thread with
    | none => .error "websocket message has no thread key"
    | some thread =>
      if thread.length > MAX_THREAD_SIZE then
        .error "Thread exceeds max thread size; dropping"
      else
        match wrapper.service with
        | none => .error "service name is required"
        | some _service =>
          match relayOsrfMsgs thread wrapper.osrf_msg s with
          | .error e => .error e
          | .ok s2 => .ok { s2 with log_trace := none }

/-- Number of Connect/Request messages a frame carries (each increments
`reqs_in_flight` when the frame is relayed). -/
def crCountList : List (Option Msg) → Nat
  | [] => 0
  | none :: rest => crCountList rest
  | some m :: rest =>
    (match m.mtype with
     | .connect => 1
     | .request => 1
     | _ => 0) + crCountList rest

/-- `crCountList` of a frame's parsed message list. -/
def crCount (w : WSText) : Nat :=
  match w.parsed with
  | none => 0
  | some wrapper => crCountList wrapper.osrf_msg

/-- A successfully relayed message list leaves the queue and
`max_parallel` alone and adds exactly its Connect/Request count to
`reqs_in_flight`. -/
theorem relayOsrfMsgs_ok (thread : String) :
    ∀ (ms : List (Option Msg)) (s s' : Session),
      relayOsrfMsgs thread ms s = .ok s' →
      s'.request_queue = s.request_queue ∧
        s'.max_parallel = s.max_parallel ∧
        s'.reqs_in_flight = s.reqs_in_flight + crCountList ms ∧
        s'.shutdown_session = s.shutdown_session ∧
        s'.shutdown_server = s.shutdown_server ∧
        s'.shutdown_timer = s.shutdown_timer := by
  intro ms
  induction ms with
  | nil =>
    intro s s' h
    simp only [relayOsrfMsgs] at h
    cases h
    simp [crCountList]
  | cons hd tl ih =>
    intro s s' h
    cases hd with
    | none => simp [relayOsrfMsgs] at h
    | some m =>
      cases hm : m.mtype with
      | connect =>
        simp only [relayOsrfMsgs, hm] at h
        obtain ⟨h1, h2, h3, h4, h5, h6⟩ := ih _ _ h
        dsimp only at h1 h2 h3 h4 h5 h6
        simp only [crCountList, hm]
        exact ⟨h1, h2, by omega, h4, h5, h6⟩
      | request =>
        cases hp : m.payload with
        | method name np =>
          simp only [relayOsrfMsgs, hm, hp] at h
          obtain ⟨h1, h2, h3, h4, h5, h6⟩ := ih _ _ h
          dsimp only at h1 h2 h3 h4 h5 h6
          simp only [crCountList, hm]
          exact ⟨h1, h2, by omega, h4, h5, h6⟩
        | resultPayload => simp [relayOsrfMsgs, hm, hp] at h
        | statusPayload stat => simp [relayOsrfMsgs, hm, hp] at h
        | noPayload => simp [relayOsrfMsgs, hm, hp] at h
      | result => simp [relayOsrfMsgs, hm] at h
      | status => simp [relayOsrfMsgs, hm] at h
      | disconnect =>
        simp only [relayOsrfMsgs, hm] at h
        obtain ⟨h1, h2, h3, h4, h5, h6⟩ := ih _ _ h
        dsimp only at h1 h2 h3 h4 h5 h6
        simp only [crCountList, hm]
        exact ⟨h1, h2, by omega, h4, h5, h6⟩

/-- A successfully relayed frame leaves the queue and `max_parallel`
alone and adds exactly its Connect/Request count to `reqs_in_flight`. -/
theorem relay_to_osrf_ok (s : Session) (w : WSText) (s' : Session)
    (h : relay_to_osrf s w = .ok s') :
    s'.request_queue = s.request_queue ∧
      s'.max_parallel = s.max_parallel ∧
      s'.reqs_in_flight = s.reqs_in_flight + crCount w ∧
      s'.shutdown_session = s.shutdown_session ∧
      s'.shutdown_server = s.shutdown_server ∧
      s'.shutdown_timer = s.shutdown_timer := by
  unfold relay_to_osrf at h
  cases hp : w.parsed with
  | none => simp [hp] at h
  | some wrapper =>
    simp only [hp] at h
    cases ht : wrapper.thread with
    | none => simp [ht] at h
    | some thread =>
      simp only [ht] at h
      by_cases hlen : thread.length > MAX_THREAD_SIZE
      · simp [hlen] at h
      · simp only [hlen, if_neg, if_false, reduceIte] at h
        cases hs : wrapper.service with
        | none => simp [hs] at h
        | some service =>
          simp only [hs] at h
          cases hr : relayOsrfMsgs thread wrapper.osrf_msg
              { s with log_trace :=
                  match wrapper.log_xid with
                  | some xid => some xid
                  | none => some "mk-log-trace" } with
          | error e => rw [hr] at h; simp at h
          | ok s2 =>
            rw [hr] at h
            simp only [Except.ok.injEq] at h
            obtain ⟨h1, h2, h3, h4, h5, h6⟩ := relayOsrfMsgs_ok _ _ _ _ hr
            dsimp only at h1 h2 h3 h4 h5 h6
            subst h
            simp only [crCount, hp]
            exact ⟨h1, h2, h3, h4, h5, h6⟩

/-- The drain loop of `process_message_queue`: while
`reqs_in_flight < max_parallel`, pop the front of the queue and relay
it.  The first argument is the queue (always equal to
`s.request_queue`: `relay_to_osrf` never touches the queue, see
`relay_to_osrf_ok`), which makes the recursion structural. -/
def pmqGo : List WSText → Session → Except String Session
  | queue, s =>
    if s.reqs_in_flight < s.max_parallel then
      match queue with
      | [] => .ok s
      | w :: rest =>
        match relay_to_osrf { s with request_queue := rest } w with
        | .error e => .error e
        | .ok s2 => pmqGo rest s2
    else
      .ok s

/-- `Session::process_message_queue`. -/
def process_message_queue (s : Session) : Except String Session :=
  pmqGo s.request_queue s

/-- The websocket frame varieties the session receives. -/
inductive OwnedMessage
  | text (t : WSText)
  | ping
  | close
  | binary
deriving DecidableEq, Repr

/-- `Session::handle_inbound_message`: a text frame at or above
`MAX_MESSAGE_SIZE` is dropped with an error log; with a full backlog it
is dropped with an error log; otherwise it is pushed to the queue tail.
A Ping gets a Pong (no state effect), Close sets the session shutdown
flag, and any other frame type is logged and ignored. -/
def handle_inbound_message (s : Session) (msg : OwnedMessage) :
    Except String Session :=
  match msg with
  | .text t =>
    if t.len ≥ MAX_MESSAGE_SIZE then
      .ok s
    else if s.request_queue.length ≥ MAX_BACKLOG_SIZE then
      .ok s
    else
      .ok { s with request_queue := s.request_queue ++ [t] }
  | .ping => .ok s
  | .close => .ok { s with shutdown_session := true }
  | .binary => .ok s

/-- The guarded decrement `if self.reqs_in_flight > 0 {
self.reqs_in_flight -= 1 }` of `relay_to_websocket` ("avoid
underflow"). -/
def decFlight (s : Session) : Session :=
  if s.reqs_in_flight > 0 then
    { s with reqs_in_flight := s.reqs_in_flight - 1 }
  else s

/-- One inner message of `relay_to_websocket`: a terminal `Status`
(`Ok`, `Complete`, or code >= 400) decrements `reqs_in_flight` when it
is positive; `Ok` also caches the sender address for the thread, and a
code >= 400 marks the transport error flag and evicts the cache entry.
Anything else passes through. -/
def relayWsOne (thread from_ : String) (acc : Session × Bool) (m : Msg) :
    Session × Bool :=
  match m.payload with
  | .statusPayload stat =>
    match stat with
    | .msOk =>
      let s := decFlight acc.1
      ({ s with osrf_sessions := sessionsInsert s.osrf_sessions thread from_ },
        acc.2)
    | .msComplete => (decFlight acc.1, acc.2)
    | other =>
      if statusCode other ≥ 400 then
        let s := decFlight acc.1
        ({ s with osrf_sessions := sessionsRemove s.osrf_sessions thread },
          true)
      else
        acc
  | _ => acc

/-- `Session::relay_to_websocket`: fold the status handling over the
body, then serialize the response and write it to the websocket (the
write is modeled as succeeding). -/
def relay_to_websocket (s : Session) (tm : TransportMessage) :
    Except String Session :=
  .ok (tm.body.foldl (relayWsOne tm.thread tm.from_) (s, false)).1

/-- One channel event delivered to the `Session` main thread. -/
inductive ChannelMessage
  | inbound (m : OwnedMessage)
  | outbound (tm : TransportMessage)
  | wakeup
deriving DecidableEq, Repr

/-- The body of one iteration of `Session::listen` after a channel
message is received: dispatch on the message variety, then drain the
backlog.  An `.error` return makes `listen` exit the session. -/
def listen_step (s : Session) (cm : ChannelMessage) : Except String Session :=
  match cm with
  | .inbound m =>
    match handle_inbound_message s m with
    | .error e => .error e
    | .ok s1 => process_message_queue s1
  | .outbound tm =>
    match relay_to_websocket s tm with
    | .error e => .error e
    | .ok s1 => process_message_queue s1
  | .wakeup => process_message_queue s

/-- Iterated `listen_step`: the states a session reaches by processing
a sequence of channel events. -/
def run_events : Session → List ChannelMessage → Except String Session
  | s, [] => .ok s
  | s, cm :: rest =>
    match listen_step s cm with
    | .error e => .error e
    | .ok s' => run_events s' rest

/-- The timer tail of `Session::check_shutdown` (after the flag
handling): with a running timer, exit when it is done, or when no work
is in flight and the backlog is empty; with no timer yet, start one of
`SHUTDOWN_MAX_WAIT` seconds and keep going.  `timer_done` is the value
`Timer::done()` would report at this call (`util::Timer` is outside
the sources; modeled from the spec as a started-or-not marker carrying
its duration, with expiry supplied by the caller). -/
def check_shutdown_timer (s : Session) (timer_done : Bool) : Bool × Session :=
  match s.shutdown_timer with
  | some _ =>
    if timer_done then
      (true, s)
    else if s.reqs_in_flight == 0 && s.request_queue.length == 0 then
      (true, s)
    else
      (false, s)
  | none => (false, { s with shutdown_timer := some SHUTDOWN_MAX_WAIT })

/-- `Session::check_shutdown`: a server shutdown propagates to the
session flag; with neither flag set, return false at once; otherwise
run the timer logic. -/
def check_shutdown (s : Session) (timer_done : Bool) : Bool × Session :=
  if s.shutdown_server then
    let s :=
      if !s.shutdown_session then { s with shutdown_session := true } else s
    check_shutdown_timer s timer_done
  else if !s.shutdown_session then
    (false, s)
  else
    check_shutdown_timer s timer_done

/-- The drain loop preserves `max_parallel`, leaves the in-flight
count below saturation only with an empty queue, only pops frames, and
keeps the in-flight count bounded when every queued frame carries at
most one Connect/Request. -/
theorem pmqGo_ok :
    ∀ (queue : List WSText) (s s' : Session),
      s.request_queue = queue →
      pmqGo queue s = .ok s' →
      s'.max_parallel = s.max_parallel ∧
        (s'.reqs_in_flight < s'.max_parallel → s'.request_queue = []) ∧
        (∀ w, w ∈ s'.request_queue → w ∈ s.request_queue) ∧
        ((∀ w, w ∈ s.request_queue → crCount w ≤ 1) →
          s.reqs_in_flight ≤ s.max_parallel →
          s'.reqs_in_flight ≤ s.max_parallel) := by
  intro queue
  induction queue with
  | nil =>
    intro s s' hq h
    by_cases hc : s.reqs_in_flight < s.max_parallel
    · simp only [pmqGo, if_pos hc] at h
      cases h
      exact ⟨rfl, fun _ => hq, fun w hw => hw, fun _ _ => le_of_lt hc⟩
    · simp only [pmqGo, if_neg hc] at h
      cases h
      exact ⟨rfl, fun hlt => absurd hlt hc, fun w hw => hw, fun _ hle => hle⟩
  | cons w rest ih =>
    intro s s' hq h
    by_cases hc : s.reqs_in_flight < s.max_parallel
    · simp only [pmqGo, if_pos hc] at h
      cases hr : relay_to_osrf { s with request_queue := rest } w with
      | error e => simp [hr] at h
      | ok s2 =>
        simp only [hr] at h
        obtain ⟨r1, r2, r3, _, _, _⟩ := relay_to_osrf_ok _ _ _ hr
        dsimp only at r1 r2 r3
        obtain ⟨a1, a2, a3, a4⟩ := ih s2 s' r1 h
        refine ⟨a1.trans r2, a2, ?_, ?_⟩
        · intro x hx
          have hx2 := a3 x hx
          rw [r1] at hx2
          rw [hq]
          exact List.mem_cons_of_mem _ hx2
        · intro hframes hflight
          have hcw : crCount w ≤ 1 :=
            hframes w (by rw [hq]; exact List.mem_cons_self _ _)
          have h2frames : ∀ x, x ∈ s2.request_queue → crCount x ≤ 1 := by
            intro x hx
            rw [r1] at hx
            exact hframes x (by rw [hq]; exact List.mem_cons_of_mem _ hx)
          have h2flight : s2.reqs_in_flight ≤ s2.max_parallel := by
            rw [r3, r2]; omega
          have hfin := a4 h2frames h2flight
          rw [r2] at hfin
          exact hfin
    · simp only [pmqGo, if_neg hc] at h
      cases h
      exact ⟨rfl, fun hlt => absurd hlt hc, fun w hw => hw, fun _ hle => hle⟩

/-- `decFlight` never increases the in-flight count and changes no
other field. -/
theorem decFlight_fields (s : Session) :
    (decFlight s).reqs_in_flight ≤ s.reqs_in_flight ∧
      (decFlight s).request_queue = s.request_queue ∧
      (decFlight s).max_parallel = s.max_parallel := by
  unfold decFlight
  split
  · exact ⟨Nat.sub_le _ _, rfl, rfl⟩
  · exact ⟨le_refl _, rfl, rfl⟩

/-- One `relay_to_websocket` body message never increases the in-flight
count and never touches the queue or `max_parallel`. -/
theorem relayWsOne_fields (thread from_ : String) (acc : Session × Bool)
    (m : Msg) :
    (relayWsOne thread from_ acc m).1.reqs_in_flight ≤ acc.1.reqs_in_flight ∧
      (relayWsOne thread from_ acc m).1.request_queue =
        acc.1.request_queue ∧
      (relayWsOne thread from_ acc m).1.max_parallel =
        acc.1.max_parallel := by
  obtain ⟨d1, d2, d3⟩ := decFlight_fields acc.1
  unfold relayWsOne
  cases hp : m.payload with
  | statusPayload stat =>
    cases stat <;> dsimp only [statusCode] <;>
      first
        | exact ⟨d1, d2, d3⟩
        | exact ⟨le_refl _, rfl, rfl⟩
  | method name np => exact ⟨le_refl _, rfl, rfl⟩
  | resultPayload => exact ⟨le_refl _, rfl, rfl⟩
  | noPayload => exact ⟨le_refl _, rfl, rfl⟩

/-- Folding `relayWsOne` over a body never increases the in-flight
count and never touches the queue or `max_parallel`. -/
theorem relayWs_foldl (thread from_ : String) :
    ∀ (body : List Msg) (acc : Session × Bool),
      ((body.foldl (relayWsOne thread from_) acc).1.reqs_in_flight ≤
          acc.1.reqs_in_flight) ∧
        (body.foldl (relayWsOne thread from_) acc).1.request_queue =
          acc.1.request_queue ∧
        (body.foldl (relayWsOne thread from_) acc).1.max_parallel =
          acc.1.max_parallel := by
  intro body
  induction body with
  | nil => intro acc; exact ⟨le_refl _, rfl, rfl⟩
  | cons m rest ih =>
    intro acc
    simp only [List.foldl_cons]
    obtain ⟨o1, o2, o3⟩ := relayWsOne_fields thread from_ acc m
    obtain ⟨f1, f2, f3⟩ := ih (relayWsOne thread from_ acc m)
    exact ⟨le_trans f1 o1, f2.trans o2, f3.trans o3⟩

/-- `relay_to_websocket` never increases the in-flight count and never
touches the queue or `max_parallel`. -/
theorem relay_to_websocket_ok (s : Session) (tm : TransportMessage)
    (s' : Session) (h : relay_to_websocket s tm = .ok s') :
    s'.reqs_in_flight ≤ s.reqs_in_flight ∧
      s'.request_queue = s.request_queue ∧
      s'.max_parallel = s.max_parallel := by
  unfold relay_to_websocket at h
  obtain ⟨f1, f2, f3⟩ := relayWs_foldl tm.thread tm.from_ tm.body (s, false)
  cases h
  exact ⟨f1, f2, f3⟩

/-- The per-event gateway invariant: the configured `max_parallel`, a
bounded in-flight count, every queued frame carrying at most one
Connect/Request, and an empty backlog whenever the in-flight count is
below saturation. -/
def Inv (mp : Nat) (s : Session) : Prop :=
  s.max_parallel = mp ∧
    s.reqs_in_flight ≤ mp ∧
    (∀ w, w ∈ s.request_queue → crCount w ≤ 1) ∧
    (s.reqs_in_flight < mp → s.request_queue = [])

/-- An event is good when any inbound text frame it carries contains at
most one Connect/Request message. -/
def GoodEvent : ChannelMessage → Prop
  | .inbound (.text t) => crCount t ≤ 1
  | _ => True

/-- Draining the queue from a state with the right `max_parallel`, a
bounded in-flight count, and good queued frames reestablishes the full
invariant. -/
theorem pmq_inv (mp : Nat) (s1 s' : Session)
    (h1 : s1.max_parallel = mp) (h2 : s1.reqs_in_flight ≤ mp)
    (h3 : ∀ w, w ∈ s1.request_queue → crCount w ≤ 1)
    (h : process_message_queue s1 = .ok s') : Inv mp s' := by
  obtain ⟨a1, a2, a3, a4⟩ := pmqGo_ok s1.request_queue s1 s' rfl h
  refine ⟨a1.trans h1, ?_, ?_, ?_⟩
  · have hfin := a4 h3 (by rw [h1]; exact h2)
    rw [h1] at hfin
    exact hfin
  · intro w hw
    exact h3 w (a3 w hw)
  · intro hlt
    apply a2
    rw [a1.trans h1]
    exact hlt

/-- A good event preserves the gateway invariant across one iteration
of the main listen loop. -/
theorem listen_step_inv (mp : Nat) (s s' : Session) (cm : ChannelMessage)
    (hg : GoodEvent cm) (hinv : Inv mp s)
    (h : listen_step s cm = .ok s') : Inv mp s' := by
  obtain ⟨i1, i2, i3, i4⟩ := hinv
  cases cm with
  | wakeup =>
    simp only [listen_step] at h
    exact pmq_inv mp s s' i1 i2 i3 h
  | outbound tm =>
    simp only [listen_step] at h
    cases hr : relay_to_websocket s tm with
    | error e => simp [hr] at h
    | ok s1 =>
      simp only [hr] at h
      obtain ⟨w1, w2, w3⟩ := relay_to_websocket_ok s tm s1 hr
      refine pmq_inv mp s1 s' (w3.trans i1) (le_trans w1 i2) ?_ h
      intro w hw
      rw [w2] at hw
      exact i3 w hw
  | inbound m =>
    simp only [listen_step] at h
    cases m with
    | ping =>
      simp only [handle_inbound_message] at h
      exact pmq_inv mp s s' i1 i2 i3 h
    | binary =>
      simp only [handle_inbound_message] at h
      exact pmq_inv mp s s' i1 i2 i3 h
    | close =>
      simp only [handle_inbound_message] at h
      exact pmq_inv mp { s with shutdown_session := true } s' i1 i2 i3 h
    | text t =>
      simp only [handle_inbound_message] at h
      by_cases hlen : t.len ≥ MAX_MESSAGE_SIZE
      · rw [if_pos hlen] at h
        exact pmq_inv mp s s' i1 i2 i3 h
      · rw [if_neg hlen] at h
        by_cases hbl : s.request_queue.length ≥ MAX_BACKLOG_SIZE
        · rw [if_pos hbl] at h
          exact pmq_inv mp s s' i1 i2 i3 h
        · rw [if_neg hbl] at h
          refine pmq_inv mp { s with request_queue := s.request_queue ++ [t] }
            s' i1 i2 ?_ h
          intro w hw
          dsimp only at hw
          rcases List.mem_append.mp hw with hin | hin
          · exact i3 w hin
          · simp only [List.mem_singleton] at hin
            subst hin
            simpa only [GoodEvent] using hg

/-- Good events preserve the gateway invariant along any run. -/
theorem run_events_inv (mp : Nat) :
    ∀ (evs : List ChannelMessage) (s s' : Session),
      (∀ cm, cm ∈ evs → GoodEvent cm) → Inv mp s →
      run_events s evs = .ok s' → Inv mp s' := by
  intro evs
  induction evs with
  | nil =>
    intro s s' _ hinv h
    simp only [run_events] at h
    cases h
    exact hinv
  | cons cm rest ih =>
    intro s s' hg hinv h
    simp only [run_events] at h
    cases hs : listen_step s cm with
    | error e => simp [hs] at h
    | ok s1 =>
      simp only [hs] at h
      exact ih s1 s' (fun c hc => hg c (List.mem_cons_of_mem _ hc))
        (listen_step_inv mp s s1 cm (hg cm (List.mem_cons_self _ _)) hinv hs) h

/-- The unconditional part of the invariant: the configured
`max_parallel` and an empty backlog whenever the in-flight count is
below it (no assumption on frame contents). -/
def InvU (mp : Nat) (s : Session) : Prop :=
  s.max_parallel = mp ∧ (s.reqs_in_flight < mp → s.request_queue = [])

/-- Draining the queue reestablishes `InvU` from nothing more than the
right `max_parallel`. -/
theorem pmq_invU (mp : Nat) (s1 s' : Session) (h1 : s1.max_parallel = mp)
    (h : process_message_queue s1 = .ok s') : InvU mp s' := by
  obtain ⟨a1, a2, _, _⟩ := pmqGo_ok s1.request_queue s1 s' rfl h
  refine ⟨a1.trans h1, ?_⟩
  intro hlt
  apply a2
  rw [a1.trans h1]
  exact hlt

/-- Any event preserves `InvU` across one iteration of the main listen
loop. -/
theorem listen_step_invU (mp : Nat) (s s' : Session) (cm : ChannelMessage)
    (hu : InvU mp s) (h : listen_step s cm = .ok s') : InvU mp s' := by
  obtain ⟨i1, _⟩ := hu
  cases cm with
  | wakeup =>
    simp only [listen_step] at h
    exact pmq_invU mp s s' i1 h
  | outbound tm =>
    simp only [listen_step] at h
    cases hr : relay_to_websocket s tm with
    | error e => simp [hr] at h
    | ok s1 =>
      simp only [hr] at h
      obtain ⟨_, _, w3⟩ := relay_to_websocket_ok s tm s1 hr
      exact pmq_invU mp s1 s' (w3.trans i1) h
  | inbound m =>
    simp only [listen_step] at h
    cases m with
    | ping =>
      simp only [handle_inbound_message] at h
      exact pmq_invU mp s s' i1 h
    | binary =>
      simp only [handle_inbound_message] at h
      exact pmq_invU mp s s' i1 h
    | close =>
      simp only [handle_inbound_message] at h
      exact pmq_invU mp { s with shutdown_session := true } s' i1 h
    | text t =>
      simp only [handle_inbound_message] at h
      by_cases hlen : t.len ≥ MAX_MESSAGE_SIZE
      · rw [if_pos hlen] at h
        exact pmq_invU mp s s' i1 h
      · rw [if_neg hlen] at h
        by_cases hbl : s.request_queue.length ≥ MAX_BACKLOG_SIZE
        · rw [if_pos hbl] at h
          exact pmq_invU mp s s' i1 h
        · rw [if_neg hbl] at h
          exact pmq_invU mp { s with request_queue := s.request_queue ++ [t] }
            s' i1 h

/-- Any run preserves `InvU`. -/
theorem run_events_invU (mp : Nat) :
    ∀ (evs : List ChannelMessage) (s s' : Session),
      InvU mp s → run_events s evs = .ok s' → InvU mp s' := by
  intro evs
  induction evs with
  | nil =>
    intro s s' hu h
    simp only [run_events] at h
    cases h
    exact hu
  | cons cm rest ih =>
    intro s s' hu h
    simp only [run_events] at h
    cases hs : listen_step s cm with
    | error e => simp [hs] at h
    | ok s1 =>
      simp only [hs] at h
      exact ih s1 s' (listen_step_invU mp s s1 cm hu hs) h

end Gateway

namespace Worker

open Osrf

/-- Modelled from the spec: the worker-side `ServerSession`
(session.rs is outside the sources): thread id, peer address, last
thread trace, and the responded-complete flag.  The atomic response
buffer only batches `Result` values and is not tracked, since only
`Status` emissions are observed below. -/
structure ServerSession where
  thread : String
  sender : String
  last_thread_trace : Nat
  responded_complete : Bool
deriving DecidableEq, Repr

/-- What a registered method handler did when invoked.  `success true`
means the handler marked early completion (it called
`session.send_complete()` itself); `failure` means it returned an
error without having completed the conversation. -/
inductive HandlerOutcome
  | success (early_complete : Bool)
  | failure
deriving DecidableEq, Repr

/-- Modelled from the spec: `ParamCount` of method.rs (outside the
sources): Exact / AtLeast / Range / Any. -/
inductive ParamCount
  | exact (n : Nat)
  | atLeast (n : Nat)
  | range (lo hi : Nat)
  | any
deriving DecidableEq, Repr

/-- Modelled from the spec: `ParamCount::matches`. -/
def ParamCount.matches : ParamCount → Nat → Bool
  | .any, _ => true
  | .exact n, k => k == n
  | .atLeast n, k => decide (n ≤ k)
  | .range lo hi, k => decide (lo ≤ k) && decide (k ≤ hi)

/-- A registered method: atomic flag, parameter count, and the
(abstracted) behaviour of its handler. -/
structure Method where
  atomic : Bool
  param_count : ParamCount
  outcome : HandlerOutcome
deriving DecidableEq, Repr

/-- The method registry `methods: HashMap String Method` of the
worker. -/
def Registry : Type := String → Option Method

/-- One `Status` message the worker sends: recipient address,
conversation thread, thread trace and status code (the status text has
no observable effect). -/
structure Emit where
  recipient : String
  thread : String
  trace : Nat
  code : MessageStatus
deriving DecidableEq, Repr

/-- The mutable worker state the listen loop threads through:
`connected`, the current session, and the loop-local `requests`
counter compared against `max_requests`. -/
structure Wkr where
  connected : Bool
  session : Option ServerSession
  requests : Nat
deriving DecidableEq, Repr

/-- The state a fresh worker starts its listen loop in. -/
def initWorker : Wkr := { connected := false, session := none, requests := 0 }

/-- `Worker::reply_with_status`: build a `Status` transport message
addressed to the session's sender, carrying the session's thread and
last thread trace, and send it.  The source unwraps `self.session`;
with no session it would panic, modeled as sending nothing. -/
def reply_with_status (w : Wkr) (stat : MessageStatus) : List Emit :=
  match w.session with
  | some ss => [⟨ss.sender, ss.thread, ss.last_thread_trace, stat⟩]
  | none => []

/-- `Worker::reply_bad_request`: force stateless mode
(`connected = false`), then send `Status(BadRequest)`. -/
def reply_bad_request (w : Wkr) : Wkr × List Emit :=
  let w2 : Wkr := { w with connected := false }
  (w2, reply_with_status w2 .msBadRequest)

/-- `Worker::reply_server_error`: force stateless mode
(`connected = false`), then send `Status(InternalServerError)`. -/
def reply_server_error (w : Wkr) : Wkr × List Emit :=
  let w2 : Wkr := { w with connected := false }
  (w2, reply_with_status w2 .msInternalServerError)

/-- Set `responded_complete` on the current session (the effect of
`session.send_complete()` on the session state). -/
def setRespondedComplete (w : Wkr) : Wkr :=
  match w.session with
  | some ss => { w with session := some { ss with responded_complete := true } }
  | none => w

/-- Whether the current session has already responded `Complete`. -/
def respondedComplete (w : Wkr) : Bool :=
  match w.session with
  | some ss => ss.responded_complete
  | none => false

/-- `Worker::handle_request`: reject a Request without a `Method`
payload; look the method up (miss replies `MethodNotFound`); on arity
mismatch reply `BadRequest`; otherwise run the handler: on failure
reply `InternalServerError` and propagate the error, on success emit
`Status(Complete)` unless the handler already marked the conversation
complete.  The returned Bool is the `Err` propagation flag. -/
def handle_request (reg : Registry) (w : Wkr) (m : Msg) :
    Wkr × List Emit × Bool :=
  match m.payload with
  | .method name nparams =>
    match reg name with
    | none => (w, reply_with_status w .msMethodNotFound, false)
    | some meth =>
      if ParamCount.matches meth.param_count nparams then
        match meth.outcome with
        | .failure =>
          let r := reply_server_error w
          (r.1, r.2, true)
        | .success early =>
          let wes : Wkr × List Emit :=
            if early then
              (setRespondedComplete w, reply_with_status w .msComplete)
            else (w, [])
          if respondedComplete wes.1 then
            (wes.1, wes.2, false)
          else
            (setRespondedComplete wes.1,
              wes.2 ++ reply_with_status wes.1 .msComplete, false)
      else
        let r := reply_bad_request w
        (r.1, r.2, false)
  | _ =>
    let r := reply_bad_request w
    (r.1, r.2, false)

/-- `Worker::handle_message`: record the message's thread trace on the
session and clear its responded-complete flag, then dispatch on the
message type (`Disconnect` resets; `Connect` while connected is a
`BadRequest`, otherwise sets `connected` and replies `Status(Ok)`;
`Request` dispatches to `handle_request`; anything else is a
`BadRequest`).  The source unwraps the session at entry and would
panic with none, modeled as an aborting error. -/
def handle_message (reg : Registry) (w : Wkr) (m : Msg) :
    Wkr × List Emit × Bool :=
  match w.session with
  | none => (w, [], true)
  | some ss =>
    let ss2 : ServerSession :=
      { ss with last_thread_trace := m.thread_trace,
                responded_complete := false }
    let w : Wkr := { w with session := some ss2 }
    match m.mtype with
    | .disconnect => ({ w with connected := false, session := none }, [], false)
    | .connect =>
      if w.connected then
        let r := reply_bad_request w
        (r.1, r.2, false)
      else
        let w2 : Wkr := { w with connected := true }
        (w2, reply_with_status w2 .msOk, false)
    | .request => handle_request reg w m
    | _ =>
      let r := reply_bad_request w
      (r.1, r.2, false)

/-- The body loop of `handle_transport_message`: handle each inner
message in order, stopping at the first propagated error. -/
def handleBody (reg : Registry) : Wkr → List Msg → Wkr × List Emit × Bool
  | w, [] => (w, [], false)
  | w, m :: rest =>
    match handle_message reg w m with
    | (w1, es, true) => (w1, es, true)
    | (w1, es, false) =>
      let r := handleBody reg w1 rest
      (r.1, es ++ r.2.1, r.2.2)

/-- `Worker::handle_transport_message`: when there is no session, or
its thread differs from the envelope's, bind a fresh `ServerSession`
to the envelope's thread and sender (this happens regardless of
`connected`); then handle the body. -/
def handle_transport_message (reg : Registry) (w : Wkr)
    (tm : TransportMessage) : Wkr × List Emit × Bool :=
  let w : Wkr :=
    if (match w.session with
        | none => true
        | some ss => ss.thread != tm.thread) then
      { w with session := some ⟨tm.thread, tm.from_, 0, false⟩ }
    else w
  handleBody reg w tm.body

/-- One wake of the worker listen loop: either `recv` timed out
(`timeoutWake`) or delivered a transport message. -/
inductive WEvent
  | timeoutWake
  | msg (tm : TransportMessage)
deriving DecidableEq, Repr

/-- One iteration of `Worker::listen`: when not connected, `reset()`
drops the session and clears the bus; then the received option is
handled — a timeout while connected emits `Status(Timeout)` (reusing
the session's last thread trace) and leaves the stateful conversation;
a message goes through `handle_transport_message`, an error from which
forces stateless mode.  A still-connected worker continues without
counting the cycle; otherwise the `requests` counter is incremented at
the bottom of the loop body (also on idle wakes where nothing
happened). -/
def worker_cycle (reg : Registry) (w : Wkr) (ev : WEvent) : Wkr × List Emit :=
  let w : Wkr := if w.connected then w else { w with session := none }
  let r : Wkr × List Emit :=
    match ev with
    | .timeoutWake =>
      if w.connected then
        let w2 : Wkr := { w with connected := false }
        (w2, reply_with_status w2 .msTimeout)
      else
        (w, [])
    | .msg tm =>
      let r := handle_transport_message reg w tm
      (if r.2.2 then { r.1 with connected := false } else r.1, r.2.1)
  if r.1.connected then r
  else ({ r.1 with requests := r.1.requests + 1 }, r.2)

/-- Iterated `worker_cycle`, accumulating every emitted `Status`. -/
def worker_run (reg : Registry) : Wkr → List WEvent → Wkr × List Emit
  | w, [] => (w, [])
  | w, ev :: rest =>
    let r := worker_cycle reg w ev
    let r2 := worker_run reg r.1 rest
    (r2.1, r.2 ++ r2.2)

/-- The terminal status codes of the single-completion property with
`Timeout` excluded (a keepalive Timeout reuses the last thread
trace). -/
def isTerminalNT : MessageStatus → Bool
  | .msComplete => true
  | .msBadRequest => true
  | .msInternalServerError => true
  | .msMethodNotFound => true
  | _ => false

/-- The full terminal status set of the single-completion claim,
`Timeout` included. -/
def isTerminalFull : MessageStatus → Bool
  | .msComplete => true
  | .msBadRequest => true
  | .msInternalServerError => true
  | .msMethodNotFound => true
  | .msTimeout => true
  | _ => false

/-- Number of emitted statuses for the pair `(th, tr)` whose code is a
non-Timeout terminal. -/
def emitCountNT (es : List Emit) (th : String) (tr : Nat) : Nat :=
  (es.filter
    (fun e => e.thread == th && e.trace == tr && isTerminalNT e.code)).length

/-- Number of emitted statuses for the pair `(th, tr)` whose code is
any terminal, `Timeout` included. -/
def emitCountFull (es : List Emit) (th : String) (tr : Nat) : Nat :=
  (es.filter
    (fun e => e.thread == th && e.trace == tr && isTerminalFull e.code)).length

/-- Number of inner messages of a body (handled under envelope thread
`T`) that bear the pair `(th, tr)`. -/
def bodyKeyCount (T th : String) (tr : Nat) (ms : List Msg) : Nat :=
  if T = th then (ms.filter (fun m => m.thread_trace == tr)).length else 0

/-- Number of inner messages of one worker event bearing `(th, tr)`. -/
def eventKeyCount (th : String) (tr : Nat) : WEvent → Nat
  | .timeoutWake => 0
  | .msg tm => bodyKeyCount tm.thread th tr tm.body

/-- Number of inner messages of an event sequence bearing `(th, tr)`. -/
def runKeyCount (th : String) (tr : Nat) : List WEvent → Nat
  | [] => 0
  | ev :: rest => eventKeyCount th tr ev + runKeyCount th tr rest

/-- Every session the worker holds (if any) is on thread `T`. -/
def sessThread (w : Wkr) (T : String) : Prop :=
  ∀ ss, w.session = some ss → ss.thread = T

theorem emitCountNT_append (es1 es2 : List Emit) (th : String) (tr : Nat) :
    emitCountNT (es1 ++ es2) th tr = emitCountNT es1 th tr + emitCountNT es2 th tr := by
  simp [emitCountNT, List.filter_append]

theorem emitCountNT_nil (th : String) (tr : Nat) : emitCountNT [] th tr = 0 := rfl

/-- A single emission contributes at most one to the count, and only
for its own pair. -/
theorem emitCountNT_singleton (e : Emit) (th : String) (tr : Nat) :
    emitCountNT [e] th tr ≤ if e.thread = th ∧ e.trace = tr then 1 else 0 := by
  by_cases h1 : e.thread = th
  · by_cases h2 : e.trace = tr
    · rw [if_pos ⟨h1, h2⟩]
      exact le_trans (List.length_filter_le _ [e]) (by simp)
    · rw [if_neg (by intro hcon; exact h2 hcon.2)]
      simp [emitCountNT, h1, h2]
  · rw [if_neg (by intro hcon; exact h1 hcon.1)]
    simp [emitCountNT, h1]

/-- `reply_with_status` with a session present emits exactly one
status, addressed to the session's sender, on the session's thread and
last thread trace. -/
theorem reply_with_status_emits (w : Wkr) (ss : ServerSession)
    (stat : MessageStatus) (hs : w.session = some ss) :
    reply_with_status w stat =
      [⟨ss.sender, ss.thread, ss.last_thread_trace, stat⟩] := by
  simp [reply_with_status, hs]

/-- Per-message shape: with a session on `(thread, sender)`, one
handled message leaves either no session or a session on the same
thread and sender with the message's trace, and emits either nothing
or exactly one status bearing the session thread and message trace. -/
theorem handle_message_shape (reg : Registry) (w : Wkr) (ss : ServerSession)
    (m : Msg) (hs : w.session = some ss) :
    ((handle_message reg w m).1.session = none ∨
      ∃ rc, (handle_message reg w m).1.session =
        some ⟨ss.thread, ss.sender, m.thread_trace, rc⟩) ∧
      ((handle_message reg w m).2.1 = [] ∨
        ∃ c, (handle_message reg w m).2.1 =
          [⟨ss.sender, ss.thread, m.thread_trace, c⟩]) := by
  simp only [handle_message, hs]
  cases hm : m.mtype with
  | disconnect =>
    simp only [hm]
    exact ⟨Or.inl trivial, Or.inl trivial⟩
  | connect =>
    simp only [hm]
    by_cases hc : w.connected
    · simp only [hc, if_true, reply_bad_request, reply_with_status]
      exact ⟨Or.inr ⟨false, rfl⟩, Or.inr ⟨.msBadRequest, rfl⟩⟩
    · simp only [hc, if_false, Bool.false_eq_true, reply_with_status]
      exact ⟨Or.inr ⟨false, rfl⟩, Or.inr ⟨.msOk, rfl⟩⟩
  | request =>
    simp only [hm, handle_request]
    cases hp : m.payload with
    | method name np =>
      simp only [hp]
      cases hreg : reg name with
      | none =>
        simp only [hreg, reply_with_status]
        exact ⟨Or.inr ⟨false, rfl⟩, Or.inr ⟨.msMethodNotFound, rfl⟩⟩
      | some meth =>
        simp only [hreg]
        by_cases hpc : ParamCount.matches meth.param_count np
        · simp only [hpc, if_true]
          cases ho : meth.outcome with
          | failure =>
            simp only [ho, reply_server_error, reply_with_status]
            exact ⟨Or.inr ⟨false, rfl⟩, Or.inr ⟨.msInternalServerError, rfl⟩⟩
          | success early =>
            simp only [ho]
            by_cases he : early
            · simp only [he, if_true, setRespondedComplete,
                respondedComplete, reply_with_status]
              exact ⟨Or.inr ⟨true, rfl⟩, Or.inr ⟨.msComplete, rfl⟩⟩
            · simp only [he, if_false, Bool.false_eq_true,
                setRespondedComplete, respondedComplete, reply_with_status]
              exact ⟨Or.inr ⟨true, rfl⟩, Or.inr ⟨.msComplete, rfl⟩⟩
        · simp only [hpc, if_false, Bool.false_eq_true, reply_bad_request,
            reply_with_status]
          exact ⟨Or.inr ⟨false, rfl⟩, Or.inr ⟨.msBadRequest, rfl⟩⟩
    | resultPayload =>
      simp only [hp, reply_bad_request, reply_with_status]
      exact ⟨Or.inr ⟨false, rfl⟩, Or.inr ⟨.msBadRequest, rfl⟩⟩
    | statusPayload stat =>
      simp only [hp, reply_bad_request, reply_with_status]
      exact ⟨Or.inr ⟨false, rfl⟩, Or.inr ⟨.msBadRequest, rfl⟩⟩
    | noPayload =>
      simp only [hp, reply_bad_request, reply_with_status]
      exact ⟨Or.inr ⟨false, rfl⟩, Or.inr ⟨.msBadRequest, rfl⟩⟩
  | result =>
    simp only [hm, reply_bad_request, reply_with_status]
    exact ⟨Or.inr ⟨false, rfl⟩, Or.inr ⟨.msBadRequest, rfl⟩⟩
  | status =>
    simp only [hm, reply_bad_request, reply_with_status]
    exact ⟨Or.inr ⟨false, rfl⟩, Or.inr ⟨.msBadRequest, rfl⟩⟩

/-- Unfolding equation for `handleBody` on a cons cell. -/
theorem handleBody_cons (reg : Registry) (w : Wkr) (m : Msg)
    (rest : List Msg) :
    handleBody reg w (m :: rest) =
      if (handle_message reg w m).2.2 then
        ((handle_message reg w m).1, (handle_message reg w m).2.1, true)
      else
        ((handleBody reg (handle_message reg w m).1 rest).1,
          (handle_message reg w m).2.1 ++
            (handleBody reg (handle_message reg w m).1 rest).2.1,
          (handleBody reg (handle_message reg w m).1 rest).2.2) := by
  rcases hr : handle_message reg w m with ⟨w1, es, err⟩
  cases err <;> simp [handleBody, hr]

/-- Counting step for `bodyKeyCount` on a cons cell. -/
theorem bodyKeyCount_cons (T th : String) (tr : Nat) (m : Msg)
    (rest : List Msg) :
    bodyKeyCount T th tr (m :: rest) =
      (if T = th ∧ m.thread_trace = tr then 1 else 0) +
        bodyKeyCount T th tr rest := by
  unfold bodyKeyCount
  by_cases h1 : T = th
  · by_cases h2 : m.thread_trace = tr
    · simp [h1, h2]
      omega
    · simp [h1, h2]
  · simp [h1]

/-- Handling a body under a session pinned to thread `T` emits at most
one non-Timeout terminal status per inner message, each on that
message's pair. -/
theorem handleBody_count (reg : Registry) (T th : String) (tr : Nat) :
    ∀ (ms : List Msg) (w : Wkr), sessThread w T →
      emitCountNT (handleBody reg w ms).2.1 th tr ≤
        bodyKeyCount T th tr ms := by
  intro ms
  induction ms with
  | nil =>
    intro w _
    simp [handleBody, emitCountNT_nil, bodyKeyCount]
  | cons m rest ih =>
    intro w hw
    rw [bodyKeyCount_cons, handleBody_cons]
    cases hsess : w.session with
    | none =>
      simp only [handle_message, hsess]
      simp [emitCountNT_nil]
    | some ss =>
      have hT : ss.thread = T := hw ss hsess
      obtain ⟨hsession, hemits⟩ := handle_message_shape reg w ss m hsess
      have hesb : emitCountNT (handle_message reg w m).2.1 th tr ≤
          (if T = th ∧ m.thread_trace = tr then 1 else 0) := by
        rcases hemits with he | ⟨c, he⟩
        · rw [he]
          simp [emitCountNT_nil]
        · rw [he]
          have hsing :=
            emitCountNT_singleton ⟨ss.sender, ss.thread, m.thread_trace, c⟩
              th tr
          simpa [hT] using hsing
      have hw1 : sessThread (handle_message reg w m).1 T := by
        intro ss1 hss1
        rcases hsession with hn | ⟨rc, hsome⟩
        · rw [hn] at hss1
          cases hss1
        · rw [hsome] at hss1
          injection hss1 with hinj
          rw [← hinj]
          exact hT
      cases herr : (handle_message reg w m).2.2
      · simp only [Bool.false_eq_true, if_false]
        rw [emitCountNT_append]
        exact Nat.add_le_add hesb (ih _ hw1)
      · simp only [if_true]
        exact le_trans hesb (Nat.le_add_right _ _)

/-- The rebind step of `handle_transport_message` pins the session to
the envelope's thread, so a transport message emits at most one
non-Timeout terminal status per inner message, each on its own pair. -/
theorem handle_transport_count (reg : Registry) (w : Wkr)
    (tm : TransportMessage) (th : String) (tr : Nat) :
    emitCountNT (handle_transport_message reg w tm).2.1 th tr ≤
      bodyKeyCount tm.thread th tr tm.body := by
  unfold handle_transport_message
  cases hsess : w.session with
  | none =>
    simp only [hsess, if_true]
    refine handleBody_count reg tm.thread th tr tm.body _ ?_
    intro ss1 h1
    injection h1 with hinj
    rw [← hinj]
  | some ss =>
    by_cases hne : (ss.thread != tm.thread) = true
    · simp only [hsess, hne, if_true]
      refine handleBody_count reg tm.thread th tr tm.body _ ?_
      intro ss1 h1
      injection h1 with hinj
      rw [← hinj]
    · have heq : ss.thread = tm.thread := by
        by_contra hcon
        exact hne (by simp [bne_iff_ne, hcon])
      simp only [hsess, hne, if_false]
      refine handleBody_count reg tm.thread th tr tm.body w ?_
      intro ss1 h1
      rw [hsess] at h1
      injection h1 with hinj
      rw [← hinj]
      exact heq

/-- No dispatch path touches the `requests` counter. -/
theorem handle_message_requests (reg : Registry) (w : Wkr) (m : Msg) :
    (handle_message reg w m).1.requests = w.requests := by
  unfold handle_message handle_request reply_bad_request reply_server_error
    reply_with_status setRespondedComplete respondedComplete
  cases w.session with
  | none => rfl
  | some ss =>
    cases m.mtype <;> dsimp only <;>
      repeat' (first | rfl | split)

/-- Handling a body never touches the `requests` counter. -/
theorem handleBody_requests (reg : Registry) :
    ∀ (ms : List Msg) (w : Wkr),
      (handleBody reg w ms).1.requests = w.requests := by
  intro ms
  induction ms with
  | nil => intro w; rfl
  | cons m rest ih =>
    intro w
    rw [handleBody_cons]
    cases herr : (handle_message reg w m).2.2
    · simp only [Bool.false_eq_true, if_false]
      rw [ih]
      exact handle_message_requests reg w m
    · simp only [if_true]
      exact handle_message_requests reg w m

/-- Handling a transport message never touches the `requests`
counter. -/
theorem handle_transport_requests (reg : Registry) (w : Wkr)
    (tm : TransportMessage) :
    (handle_transport_message reg w tm).1.requests = w.requests := by
  unfold handle_transport_message
  dsimp only
  split
  · rw [handleBody_requests]
  · rw [handleBody_requests]

/-- The keepalive Timeout reply never counts as a non-Timeout
terminal. -/
theorem emitCountNT_timeout (w : Wkr) (th : String) (tr : Nat) :
    emitCountNT (reply_with_status w .msTimeout) th tr = 0 := by
  unfold reply_with_status
  cases w.session <;> simp [emitCountNT, isTerminalNT]

/-- The emissions of one worker cycle. -/
theorem worker_cycle_snd (reg : Registry) (w : Wkr) (ev : WEvent) :
    (worker_cycle reg w ev).2 =
      match ev with
      | .timeoutWake =>
        if w.connected then
          reply_with_status { w with connected := false } .msTimeout
        else []
      | .msg tm =>
        (handle_transport_message reg
          (if w.connected then w else { w with session := none }) tm).2.1 := by
  unfold worker_cycle
  cases ev with
  | timeoutWake =>
    by_cases hcw : w.connected
    · simp [hcw]
    · simp [hcw]
  | msg tm =>
    by_cases hcw : w.connected
    · simp only [hcw, if_true]
      split <;> (try split) <;> rfl
    · simp only [hcw, if_false, Bool.false_eq_true]
      split <;> (try split) <;> rfl

/-- One worker cycle emits at most one non-Timeout terminal status per
inner message of its event, each on that message's pair. -/
theorem worker_cycle_count (reg : Registry) (w : Wkr) (ev : WEvent)
    (th : String) (tr : Nat) :
    emitCountNT (worker_cycle reg w ev).2 th tr ≤ eventKeyCount th tr ev := by
  rw [worker_cycle_snd]
  cases ev with
  | timeoutWake =>
    by_cases hcw : w.connected
    · simp only [hcw, if_true, eventKeyCount]
      rw [emitCountNT_timeout]
    · simp only [hcw, if_false, Bool.false_eq_true, eventKeyCount]
      simp [emitCountNT_nil]
  | msg tm =>
    exact handle_transport_count reg _ tm th tr

/-- Over any event sequence, the worker emits at most one non-Timeout
terminal status per inner message bearing the pair `(th, tr)`. -/
theorem worker_run_count (reg : Registry) (th : String) (tr : Nat) :
    ∀ (evs : List WEvent) (w : Wkr),
      emitCountNT (worker_run reg w evs).2 th tr ≤ runKeyCount th tr evs := by
  intro evs
  induction evs with
  | nil =>
    intro w
    simp [worker_run, emitCountNT_nil, runKeyCount]
  | cons ev rest ih =>
    intro w
    simp only [worker_run, runKeyCount]
    rw [emitCountNT_append]
    exact Nat.add_le_add (worker_cycle_count reg w ev th tr)
      (ih (worker_cycle reg w ev).1)

end Worker

namespace Gateway

open Osrf

/-- A message list that `relay_to_osrf` rejects: an entry that
`Message::from_json_value` cannot decode, or an inner message of a
type other than Connect/Request/Disconnect. -/
def msgsViolate : List (Option Msg) → Bool
  | [] => false
  | none :: _ => true
  | some m :: rest =>
    match m.mtype with
    | .result => true
    | .status => true
    | _ => msgsViolate rest

/-- A frame that constitutes a protocol violation in the sense of the
claim: unparseable JSON, missing thread key, thread id longer than
`MAX_THREAD_SIZE`, missing service key, or a rejected message list. -/
def isViolation (w : WSText) : Bool :=
  match w.parsed with
  | none => true
  | some wrapper =>
    match wrapper.thread with
    | none => true
    | some thread =>
      decide (thread.length > MAX_THREAD_SIZE) ||
        match wrapper.service with
        | none => true
        | some _ => msgsViolate wrapper.osrf_msg

/-- Whether an `Except` result is the error case. -/
def exceptErred : Except String Session → Bool
  | .error _ => true
  | .ok _ => false

/-- The in-flight count of a session result (`0` for errors). -/
def flightOf : Except String Session → Nat
  | .ok s => s.reqs_in_flight
  | .error _ => 0

/-- The `max_parallel` of a session result (`0` for errors). -/
def maxParOf : Except String Session → Nat
  | .ok s => s.max_parallel
  | .error _ => 0

/-- A rejected message list makes the relay loop fail from any
state. -/
theorem msgsViolate_error (thread : String) :
    ∀ (ms : List (Option Msg)), msgsViolate ms = true →
      ∀ (s : Session), ∃ e, relayOsrfMsgs thread ms s = .error e := by
  intro ms
  induction ms with
  | nil => intro hv; simp [msgsViolate] at hv
  | cons hd tl ih =>
    intro hv s
    cases hd with
    | none => exact ⟨_, rfl⟩
    | some m =>
      cases hm : m.mtype with
      | result =>
        exact ⟨"WS received unexpected message type",
          by simp [relayOsrfMsgs, hm]⟩
      | status =>
        exact ⟨"WS received unexpected message type",
          by simp [relayOsrfMsgs, hm]⟩
      | connect =>
        simp only [msgsViolate, hm] at hv
        obtain ⟨e, he⟩ := ih hv { s with reqs_in_flight := s.reqs_in_flight + 1 }
        exact ⟨e, by simp [relayOsrfMsgs, hm, he]⟩
      | disconnect =>
        simp only [msgsViolate, hm] at hv
        obtain ⟨e, he⟩ := ih hv
          { s with osrf_sessions := sessionsRemove s.osrf_sessions thread }
        exact ⟨e, by simp [relayOsrfMsgs, hm, he]⟩
      | request =>
        simp only [msgsViolate, hm] at hv
        cases hp : m.payload with
        | method name np =>
          obtain ⟨e, he⟩ := ih hv { s with reqs_in_flight := s.reqs_in_flight + 1 }
          exact ⟨e, by simp [relayOsrfMsgs, hm, hp, he]⟩
        | resultPayload =>
          exact ⟨"WS received Request with no payload",
            by simp [relayOsrfMsgs, hm, hp]⟩
        | statusPayload stat =>
          exact ⟨"WS received Request with no payload",
            by simp [relayOsrfMsgs, hm, hp]⟩
        | noPayload =>
          exact ⟨"WS received Request with no payload",
            by simp [relayOsrfMsgs, hm, hp]⟩

/-- A violating frame makes `relay_to_osrf` fail from any state. -/
theorem isViolation_error (w : WSText) (hv : isViolation w = true) :
    ∀ (s : Session), ∃ e, relay_to_osrf s w = .error e := by
  intro s
  unfold relay_to_osrf
  cases hp : w.parsed with
  | none => exact ⟨_, rfl⟩
  | some wrapper =>
    simp only [isViolation, hp] at hv
    cases ht : wrapper.thread with
    | none => simp only [ht]; exact ⟨_, rfl⟩
    | some thread =>
      simp only [ht] at hv ⊢
      by_cases hlen : thread.length > MAX_THREAD_SIZE
      · rw [if_pos hlen]
        exact ⟨_, rfl⟩
      · rw [if_neg hlen]
        have hdec : decide (thread.length > MAX_THREAD_SIZE) = false :=
          decide_eq_false hlen
        rw [hdec, Bool.false_or] at hv
        cases hs : wrapper.service with
        | none => exact ⟨_, rfl⟩
        | some service =>
          simp only [hs] at hv ⊢
          obtain ⟨e, he⟩ := msgsViolate_error thread wrapper.osrf_msg hv
            { s with log_trace :=
                match wrapper.log_xid with
                | some xid => some xid
                | none => some "mk-log-trace" }
          exact ⟨e, by simp only [he]⟩

end Gateway

/-!
Concrete inputs used by the claim counterexamples and witnesses.
-/

section ClaimInputs

open Osrf Gateway Worker

/-- A well-formed frame carrying two Request messages in one
`osrf_msg` array. -/
def c1frame : WSText :=
  { len := 100
    parsed := some
      { thread := some "t"
        log_xid := none
        service := some "svc"
        osrf_msg :=
          [some { mtype := .request, thread_trace := 1,
                  payload := .method "m" 0 },
           some { mtype := .request, thread_trace := 2,
                  payload := .method "m" 0 }] } }

/-- A small frame whose text is not parseable JSON. -/
def badFrame : WSText := { len := 10, parsed := none }

/-- A registry with a single zero-argument method `echo` whose handler
succeeds without early completion. -/
def c2reg : Registry := fun name =>
  if name = "echo" then
    some { atomic := false, param_count := .any,
           outcome := .success false }
  else none

/-- Connect on thread `T`, then a request answered with Complete, then
a keepalive timeout while still connected. -/
def c2evs : List WEvent :=
  [.msg { thread := "T", from_ := "caller", osrf_xid := ""
          body := [{ mtype := .connect, thread_trace := 0,
                     payload := .noPayload }] },
   .msg { thread := "T", from_ := "caller", osrf_xid := ""
          body := [{ mtype := .request, thread_trace := 1,
                     payload := .method "echo" 0 }] },
   .timeoutWake]

/-- A worker mid-conversation on thread `T1`. -/
def c4w : Wkr :=
  { connected := true
    session := some { thread := "T1", sender := "addr1",
                      last_thread_trace := 0, responded_complete := false }
    requests := 0 }

/-- A transport message on a different thread `T2` arriving while the
worker is connected to `T1`. -/
def c4tm : TransportMessage :=
  { thread := "T2", from_ := "addr2", osrf_xid := ""
    body := [{ mtype := .request, thread_trace := 1,
               payload := .method "echo" 0 }] }

/-- An outbound envelope carrying two terminal statuses (a Complete
and a Timeout) for an idle session. -/
def c9tm : TransportMessage :=
  { thread := "T", from_ := "svc-addr", osrf_xid := ""
    body := [{ mtype := .status, thread_trace := 1,
               payload := .statusPayload .msComplete },
             { mtype := .status, thread_trace := 1,
               payload := .statusPayload .msTimeout }] }

/-- A worker session used by the Connect-dispatch witnesses. -/
def c7ssW : ServerSession :=
  { thread := "T", sender := "caller", last_thread_trace := 5,
    responded_complete := false }

/-- A Connect message with trace 7. -/
def c7m : Msg := { mtype := .connect, thread_trace := 7, payload := .noPayload }

/-- A disconnected worker holding session `c7ssW`. -/
def c7w1 : Wkr := { connected := false, session := some c7ssW, requests := 0 }

/-- A connected worker holding session `c7ssW`. -/
def c7w2 : Wkr := { connected := true, session := some c7ssW, requests := 0 }

end ClaimInputs

/-!
Claim theorems.
-/

section Claims

open Osrf Gateway Worker

/-- Helper for C3: a violating frame at the head of the queue makes
the drain loop fail when the in-flight count is below saturation. -/
theorem pmqGo_error_of_violation (s1 : Session) (w : WSText)
    (rest : List WSText) (hv : isViolation w = true)
    (hc : s1.reqs_in_flight < s1.max_parallel) :
    exceptErred (pmqGo (w :: rest) s1) = true := by
  obtain ⟨e, he⟩ := isViolation_error w hv { s1 with request_queue := rest }
  simp only [pmqGo, if_pos hc, he]
  rfl

/-- Claim C1 (corrected).  For every run of the gateway session main
loop from its initial state: whenever `reqs_in_flight` is below
`max_parallel` the backlog is empty, and — provided every inbound text
frame carries at most one Connect or Request message — `reqs_in_flight`
never exceeds `max_parallel` (it is a `Nat`, so `0 <= reqs_in_flight`
holds throughout).  The unrestricted upper bound claimed is false: a
single frame with several Connect/Request messages popped at
`max_parallel - 1` overshoots the bound (see the counterexample). -/
theorem gateway_inflight_invariant_amended (mp : Nat)
    (evs : List ChannelMessage) (s' : Session)
    (hrun : run_events (initSession mp) evs = .ok s') :
    (s'.reqs_in_flight < mp → s'.request_queue = []) ∧
      ((∀ cm, cm ∈ evs → GoodEvent cm) → s'.reqs_in_flight ≤ mp) := by
  constructor
  · have hu := run_events_invU mp evs (initSession mp) s'
      ⟨rfl, fun _ => rfl⟩ hrun
    exact hu.2
  · intro hg
    have hinv : Inv mp (initSession mp) := by
      refine ⟨rfl, Nat.zero_le _, ?_, fun _ => rfl⟩
      intro w hw
      simp [initSession] at hw
    exact (run_events_inv mp evs (initSession mp) s' hg hinv hrun).2.1

/-- Witness for C1: the empty-backlog and bounded in-flight conclusions
evaluated on a one-event run with `max_parallel = 8`. -/
theorem gateway_inflight_invariant_amended_witness :
    (initSession 8).reqs_in_flight ≤ 8 ∧
      (initSession 8).request_queue = [] :=
  ⟨(gateway_inflight_invariant_amended 8 [.wakeup] (initSession 8) rfl).2
      (by intro cm hcm; rw [List.mem_singleton] at hcm; subst hcm; trivial),
    (gateway_inflight_invariant_amended 8 [.wakeup] (initSession 8) rfl).1
      (by decide)⟩

/-- Counterexample for C1 as stated: with `max_parallel = 1`, a single
inbound frame whose `osrf_msg` array carries two Request messages is
popped at `reqs_in_flight = 0` and leaves `reqs_in_flight = 2`, so
after this event `reqs_in_flight <= max_parallel` fails. -/
theorem gateway_inflight_claim_counterexample :
    flightOf (run_events (initSession 1) [.inbound (.text c1frame)]) = 2 ∧
      maxParOf (run_events (initSession 1) [.inbound (.text c1frame)]) = 1 := by
  constructor <;> rfl

/-- Claim C3 (corrected).  A protocol-violating inbound text frame
(unparseable JSON, missing thread, thread id over 256 bytes, missing
service, or an inner message of a type other than
Connect/Request/Disconnect) is not merely dropped: once the frame is
relayed, `relay_to_osrf` returns an error which `process_message_queue`
propagates to `listen`, and the session main loop exits — the
connection is torn down, not preserved.  (Only the oversized-frame and
full-backlog drops of `handle_inbound_message` preserve the
connection.) -/
theorem gateway_violation_exits_session (s : Session) (w : WSText)
    (hq : s.request_queue = []) (hlt : s.reqs_in_flight < s.max_parallel)
    (hlen : w.len < MAX_MESSAGE_SIZE) (hv : isViolation w = true) :
    exceptErred (listen_step s (.inbound (.text w))) = true := by
  simp only [listen_step, handle_inbound_message]
  rw [if_neg (by omega)]
  rw [hq, if_neg (by decide)]
  simp only [List.nil_append]
  unfold process_message_queue
  exact pmqGo_error_of_violation { s with request_queue := [w] } w [] hv hlt

/-- Witness for C3: the unparseable frame makes the main loop of a
fresh session exit. -/
theorem gateway_violation_exits_session_witness :
    exceptErred (listen_step (initSession 8) (.inbound (.text badFrame))) =
      true :=
  gateway_violation_exits_session (initSession 8) badFrame rfl (by decide)
    (by decide) rfl

/-- Counterexample for C3 as stated: the claim says the session main
loop does not exit on a bad envelope, but processing an unparseable
frame returns the error that makes `listen` return. -/
theorem gateway_violation_counterexample :
    listen_step (initSession 8) (.inbound (.text badFrame)) =
      .error "Cannot parse websocket message" := rfl

/-- Claim C6 (corrected).  Frame admission: a text frame is dropped
(state unchanged, connection kept) when its size is at least
`MAX_MESSAGE_SIZE` (10,485,760 bytes) — not only when it strictly
exceeds 10 MiB as claimed; otherwise it is dropped when the backlog
already holds `MAX_BACKLOG_SIZE` entries; otherwise it is appended to
the tail of the backlog. -/
theorem gateway_frame_admission (s : Session) (t : WSText) :
    (t.len ≥ MAX_MESSAGE_SIZE →
      handle_inbound_message s (.text t) = .ok s) ∧
      (t.len < MAX_MESSAGE_SIZE →
        s.request_queue.length ≥ MAX_BACKLOG_SIZE →
        handle_inbound_message s (.text t) = .ok s) ∧
      (t.len < MAX_MESSAGE_SIZE →
        s.request_queue.length < MAX_BACKLOG_SIZE →
        handle_inbound_message s (.text t) =
          .ok { s with request_queue := s.request_queue ++ [t] }) := by
  refine ⟨?_, ?_, ?_⟩
  · intro h1
    unfold handle_inbound_message
    dsimp only
    rw [if_pos h1]
  · intro h1 h2
    unfold handle_inbound_message
    dsimp only
    rw [if_neg (by omega), if_pos h2]
  · intro h1 h2
    unfold handle_inbound_message
    dsimp only
    rw [if_neg (by omega), if_neg (by omega)]

/-- Witness for C6: a 10,485,761-byte frame is dropped with the state
unchanged, and a 4-byte frame is appended to the empty backlog. -/
theorem gateway_frame_admission_witness :
    handle_inbound_message (initSession 8)
        (.text { len := 10485761, parsed := none }) = .ok (initSession 8) ∧
      handle_inbound_message (initSession 8)
          (.text { len := 4, parsed := none }) =
        .ok { initSession 8 with
                request_queue := [{ len := 4, parsed := none }] } :=
  ⟨(gateway_frame_admission (initSession 8)
      { len := 10485761, parsed := none }).1 (by decide),
    by
      have h := (gateway_frame_admission (initSession 8)
        { len := 4, parsed := none }).2.2 (by decide) (by decide)
      simpa [initSession] using h⟩

/-- Counterexample for C6 as stated: a frame of exactly 10,485,760
bytes does not exceed 10 MiB, so the claim would append it to the
empty backlog — but the code compares with `>=` and drops it, leaving
the state unchanged. -/
theorem gateway_boundary_frame_counterexample :
    handle_inbound_message (initSession 8)
        (.text { len := 10485760, parsed := none }) =
      .ok (initSession 8) := rfl

/-- Claim C8 (confirmed).  Once a shutdown flag is observed: with no
timer yet, `check_shutdown` starts the `SHUTDOWN_MAX_WAIT` (30 s)
timer and does not exit; on every subsequent check (timer present —
and the session flag set, as it is on every state that has started the
timer) it exits exactly when the timer has expired or both
`reqs_in_flight = 0` and the backlog is empty, and the state is left
untouched (the timer is started exactly once). -/
theorem gateway_shutdown_protocol (s : Session) (d : Bool)
    (hflag : s.shutdown_server = true ∨ s.shutdown_session = true) :
    (s.shutdown_timer = none →
      (check_shutdown s d).1 = false ∧
        (check_shutdown s d).2.shutdown_timer = some SHUTDOWN_MAX_WAIT) ∧
      (∀ t0, s.shutdown_timer = some t0 → s.shutdown_session = true →
        check_shutdown s d =
          ((d || (s.reqs_in_flight == 0 && s.request_queue.length == 0)),
            s)) := by
  by_cases hsrv : s.shutdown_server = true
  · constructor
    · intro htn
      by_cases hsess : s.shutdown_session = true
      · simp [check_shutdown, check_shutdown_timer, hsrv, hsess, htn]
      · simp [check_shutdown, check_shutdown_timer, hsrv, hsess, htn]
    · intro t0 hts hsess
      simp only [check_shutdown, check_shutdown_timer, hsrv, hsess,
        Bool.not_true, if_true, if_false, Bool.false_eq_true, hts]
      cases d
      · by_cases hx :
          (s.reqs_in_flight == 0 && s.request_queue.length == 0) = true
        · simp [hx]
        · rw [Bool.not_eq_true] at hx
          simp [hx]
      · simp
  · have hsess : s.shutdown_session = true := hflag.resolve_left hsrv
    constructor
    · intro htn
      simp [check_shutdown, check_shutdown_timer, hsrv, hsess, htn]
    · intro t0 hts _
      simp only [check_shutdown, check_shutdown_timer, hsrv, hsess,
        Bool.not_true, if_true, if_false, Bool.false_eq_true, hts]
      cases d
      · by_cases hx :
          (s.reqs_in_flight == 0 && s.request_queue.length == 0) = true
        · simp [hx]
        · rw [Bool.not_eq_true] at hx
          simp [hx]
      · simp

/-- A fresh session that has just observed the server shutdown flag. -/
def c8sA : Session := { initSession 8 with shutdown_server := true }

/-- A drained session with the session flag set and the timer
running. -/
def c8sB : Session :=
  { initSession 8 with shutdown_session := true, shutdown_timer := some 30 }

/-- Witness for C8: a fresh session with the server flag set starts
the 30-second timer without exiting, and a session with the flag set,
a running timer, no in-flight work and an empty backlog exits. -/
theorem gateway_shutdown_protocol_witness :
    (check_shutdown c8sA false).1 = false ∧
      (check_shutdown c8sA false).2.shutdown_timer =
        some SHUTDOWN_MAX_WAIT ∧
      check_shutdown c8sB false = (true, c8sB) := by
  have h1 := (gateway_shutdown_protocol c8sA false (Or.inl rfl)).1 rfl
  have h2 := (gateway_shutdown_protocol c8sB false (Or.inr rfl)).2 30 rfl rfl
  refine ⟨h1.1, h1.2, ?_⟩
  rw [h2]
  rfl

/-- Claim C9 (confirmed).  Each decrement of `reqs_in_flight` in
`relay_to_websocket` is guarded by `reqs_in_flight > 0`, so an
outbound envelope processed at `reqs_in_flight = 0` — duplicate or
unsolicited terminal statuses included — leaves the counter at 0: the
`usize` counter can never wrap, and the relay succeeds. -/
theorem gateway_inflight_no_underflow (s : Session)
    (tm : TransportMessage) (h : s.reqs_in_flight = 0) :
    ∃ s', relay_to_websocket s tm = .ok s' ∧ s'.reqs_in_flight = 0 := by
  refine ⟨_, rfl, ?_⟩
  have hf := (relayWs_foldl tm.thread tm.from_ tm.body (s, false)).1
  dsimp only at hf
  omega

/-- Witness for C9: an envelope with a duplicate Complete and an
unsolicited Timeout processed at in-flight 0 leaves the counter at
0. -/
theorem gateway_inflight_no_underflow_witness :
    ∃ s', relay_to_websocket (initSession 8) c9tm = .ok s' ∧
      s'.reqs_in_flight = 0 :=
  gateway_inflight_no_underflow (initSession 8) c9tm rfl

/-- Claim C2 (corrected).  Timeout aside, the worker emits at most one
terminal status (`Complete`, `BadRequest`, `InternalServerError`,
`MethodNotFound`) per `(thread, thread_trace)` pair, provided the pair
occurs on at most one handled inner message (as the monotone
thread-trace envelope invariant guarantees); in particular a handler
that marks early completion does not cause a second `Complete`.  The
claim as stated — with `Timeout` included in the set — is false:
`reply_with_status(Timeout)` on a keepalive expiry reuses
`last_thread_trace`, producing a second terminal status for a pair
already answered with `Complete` (see the counterexample). -/
theorem worker_single_completion_amended (reg : Registry)
    (evs : List WEvent) (th : String) (tr : Nat)
    (hk : runKeyCount th tr evs ≤ 1) :
    emitCountNT (worker_run reg initWorker evs).2 th tr ≤ 1 :=
  le_trans (worker_run_count reg th tr evs initWorker) hk

/-- Witness for C2: on the Connect/Request/timeout run, the pair
`("T", 1)` occurs on one message and receives at most one non-Timeout
terminal status. -/
theorem worker_single_completion_amended_witness :
    runKeyCount "T" 1 c2evs ≤ 1 ∧
      emitCountNT (worker_run c2reg initWorker c2evs).2 "T" 1 ≤ 1 :=
  ⟨by decide, worker_single_completion_amended c2reg c2evs "T" 1 (by decide)⟩

/-- Counterexample for C2 as stated: after Connect and a Request on
trace 1 answered with `Status(Complete)`, a keepalive timeout while
still connected emits `Status(Timeout)` reusing `last_thread_trace =
1`, so the pair `("T", 1)` receives two statuses from the claim's
terminal set. -/
theorem worker_single_completion_counterexample :
    emitCountFull (worker_run c2reg initWorker c2evs).2 "T" 1 = 2 := by
  decide

/-- Claim C4 (code bug).  The worker's own doc comment says starting a
new thread in a stateful conversation results in an error, and the
claim says a differing thread id while `connected = true` yields
`Status(BadRequest)`.  The code instead silently replaces the current
session: a Request on thread `T2` arriving while connected to `T1` is
served normally — the session is rebound to `T2`, the only emission is
`Status(Complete)` for `T2` (no `BadRequest`), and the worker stays
connected. -/
theorem worker_thread_switch_divergence :
    worker_cycle c2reg c4w (.msg c4tm) =
      (⟨true, some ⟨"T2", "addr2", 1, true⟩, 0⟩,
        [⟨"addr2", "T2", 1, .msComplete⟩]) := by
  decide

/-- Claim C5 (corrected).  The `requests` counter is unchanged by any
cycle that ends still connected (connected sub-requests do not count),
and is incremented by every other completed cycle — including a
stateless wake where `recv` timed out and no message arrived, contrary
to the claim (see the counterexample). -/
theorem worker_request_counter_amended (reg : Registry) (w : Wkr)
    (ev : WEvent) :
    (worker_cycle reg w ev).1.requests =
      if (worker_cycle reg w ev).1.connected = true then w.requests
      else w.requests + 1 := by
  unfold worker_cycle
  cases ev with
  | timeoutWake =>
    by_cases hcw : w.connected
    · simp [hcw, reply_with_status]
    · simp [hcw]
  | msg tm =>
    by_cases hcw : w.connected
    · simp only [hcw, if_true]
      rcases hT : handle_transport_message reg w tm with ⟨w1, es, err⟩
      have hreq : w1.requests = w.requests := by
        have h2 := handle_transport_requests reg w tm
        rw [hT] at h2
        exact h2
      cases err
      · by_cases hconn : w1.connected = true
        · simp [hconn, hreq]
        · simp [hconn, hreq]
      · simp [hreq]
    · rw [if_neg hcw]
      dsimp only
      rcases hT : handle_transport_message reg { w with session := none } tm
        with ⟨w1, es, err⟩
      have hreq : w1.requests = w.requests := by
        have h2 := handle_transport_requests reg { w with session := none } tm
        rw [hT] at h2
        exact h2
      cases err
      · by_cases hconn : w1.connected = true
        · simp [hconn, hreq]
        · simp [hconn, hreq]
      · simp [hreq]

/-- Counterexample for C5 as stated: a stateless wake cycle in which
`recv` timed out and no work occurred still increments the request
counter from 0 to 1, though the claim says it is left unchanged. -/
theorem worker_idle_wake_counterexample :
    worker_cycle c2reg initWorker .timeoutWake =
      ({ connected := false, session := none, requests := 1 }, []) := by
  decide

/-- Claim C7 (confirmed).  A Connect received while not connected sets
`connected = true` and replies `Status(Ok)` to the session's sender,
carrying the message's thread trace; a Connect received while
connected replies `Status(BadRequest)` (and, per `reply_bad_request`,
drops to stateless mode). -/
theorem worker_connect_dispatch (reg : Registry) (w : Wkr)
    (ss : ServerSession) (m : Msg) (hsess : w.session = some ss)
    (hm : m.mtype = .connect) :
    (w.connected = false →
      handle_message reg w m =
        (⟨true, some ⟨ss.thread, ss.sender, m.thread_trace, false⟩,
            w.requests⟩,
          [⟨ss.sender, ss.thread, m.thread_trace, .msOk⟩], false)) ∧
      (w.connected = true →
        handle_message reg w m =
          (⟨false, some ⟨ss.thread, ss.sender, m.thread_trace, false⟩,
              w.requests⟩,
            [⟨ss.sender, ss.thread, m.thread_trace, .msBadRequest⟩],
            false)) := by
  constructor
  · intro hc
    simp [handle_message, hsess, hm, hc, reply_with_status]
  · intro hc
    simp [handle_message, hsess, hm, hc, reply_bad_request,
      reply_with_status]

/-- Witness for C7: both Connect dispositions evaluated on a concrete
worker and message. -/
theorem worker_connect_dispatch_witness :
    handle_message c2reg c7w1 c7m =
      (⟨true, some ⟨"T", "caller", 7, false⟩, 0⟩,
        [⟨"caller", "T", 7, .msOk⟩], false) ∧
      handle_message c2reg c7w2 c7m =
        (⟨false, some ⟨"T", "caller", 7, false⟩, 0⟩,
          [⟨"caller", "T", 7, .msBadRequest⟩], false) :=
  ⟨(worker_connect_dispatch c2reg c7w1 c7ssW c7m rfl rfl).1 rfl,
    (worker_connect_dispatch c2reg c7w2 c7ssW c7m rfl rfl).2 rfl⟩

/-- Claim C10 (confirmed).  `reply_bad_request` and
`reply_server_error` set `connected = false` before sending, so after
any `Status(BadRequest)` or `Status(InternalServerError)` reply the
worker is stateless; in particular a Connect received while already
connected ends the stateful conversation. -/
theorem worker_error_replies_force_stateless (reg : Registry) (w : Wkr)
    (m : Msg) (ss : ServerSession) :
    (reply_bad_request w).1.connected = false ∧
      (reply_server_error w).1.connected = false ∧
      (w.session = some ss → m.mtype = .connect → w.connected = true →
        (handle_message reg w m).1.connected = false) := by
  refine ⟨rfl, rfl, ?_⟩
  intro hsess hm hc
  simp [handle_message, hsess, hm, hc, reply_bad_request]

/-- Witness for C10: both error replies leave a connected worker
stateless, and a Connect while connected does too. -/
theorem worker_error_replies_force_stateless_witness :
    (reply_bad_request c7w2).1.connected = false ∧
      (reply_server_error c7w2).1.connected = false ∧
      (handle_message c2reg c7w2 c7m).1.connected = false := by
  obtain ⟨h1, h2, h3⟩ :=
    worker_error_replies_force_stateless c2reg c7w2 c7m c7ssW
  exact ⟨h1, h2, h3 rfl rfl rfl⟩

end Claims
